import Mathlib

/-!
Verification of the cmus sound-menu adapter (`cmus_soundmenu.py`).

The script is a Python 2 program (shebang `/usr/bin/python`, `str.decode`
on `sys.argv`, Python-2-only apt dependencies); the embedding below models
the Python 2 semantics of the relevant functions: `set_status` and its
parsing loop, `_status_changed` (the state diff engine), the player
property getters (`get_PlaybackStatus`, `get_LoopStatus`, `get_Shuffle`,
`get_Volume`, `get_Metadata`, `get_Position`), the track-id helpers
(`encoded_uri`, `get_track_id`, `get_title`, `get_url`), and the command
dispatch of `SetPosition` and `set_Volume`.

A `PlayerState` (the Python dict built by `set_status`) is an association
list in which the most recent binding of a key wins, mirroring dict
assignment for lookup purposes.  Python exceptions (ValueError, KeyError,
IndexError, OverflowError) are modelled with `Except Unit`: a function
returns `.error ()` exactly when the Python code raises.  Python floats
reaching `set_Volume` are modelled as rationals (only truncation and
comparisons with small integers are performed on them).  Shelling out to
`cmus-remote` is modelled by returning the list of issued command strings,
and the filesystem-dependent cover-art pipeline by an oracle function.
-/

namespace Cmus

/-- A parsed player status: the string-to-string dict built by `set_status`.
The most recent binding of a key (closest to the head) wins. -/
abbrev PlayerState := List (String × String)

/-- Dict lookup, `d[k]` / `k in d`: `none` models a missing key (KeyError
when the source indexes unconditionally). -/
def pyGet (st : PlayerState) (k : String) : Option String :=
  List.lookup k st

/-- Whether `p` is an initial run of `s` (character lists). -/
def leadsList : List Char → List Char → Bool
  | [], _ => true
  | _ :: _, [] => false
  | p :: ps, c :: cs => p == c && leadsList ps cs

/-- Python `s.startswith(t)`. -/
def pyStartswith (s t : String) : Bool :=
  leadsList t.data s.data

/-- Whether `pat` occurs as a contiguous run inside `s` (character lists). -/
def containsList (pat : List Char) : List Char → Bool
  | [] => leadsList pat []
  | c :: cs => leadsList pat (c :: cs) || containsList pat cs

/-- Python `pat in s` for strings. -/
def strContains (s pat : String) : Bool :=
  containsList pat.data s.data

/-- Splits a line at its first space, `line.split(" ", 1)`; `none` models
the one-element result whose tuple unpacking (or `[1]` indexing) raises. -/
def splitOnceAux : List Char → Option (List Char × List Char)
  | [] => none
  | c :: cs =>
    if c = ' ' then some ([], cs)
    else
      match splitOnceAux cs with
      | none => none
      | some (l, r) => some (c :: l, r)

/-- Python `s.split(" ", 1)` restricted to the success/failure shape used
by `set_status`. -/
def splitOnce (s : String) : Option (String × String) :=
  match splitOnceAux s.data with
  | none => none
  | some (l, r) => some (String.mk l, String.mk r)

/-- Helper for `pySplitlines`: `cur` is the current line read so far,
reversed. -/
def pySplitlinesAux (cur : List Char) : List Char → List String
  | [] => [String.mk cur.reverse]
  | c :: cs =>
    if c = '\n' then
      String.mk cur.reverse :: (if cs = [] then [] else pySplitlinesAux [] cs)
    else pySplitlinesAux (c :: cur) cs

/-- Python `s.splitlines()` for newline-separated text: no entry is
produced after a trailing newline, and the empty string has no lines. -/
def pySplitlines (s : String) : List String :=
  if s.data = [] then [] else pySplitlinesAux [] s.data

/-- Python full `s.split(sep)` for a one-character separator (the source
splits on `/` and on a newline). -/
def pySplitCharAux (sep : Char) (cur : List Char) : List Char → List String
  | [] => [String.mk cur.reverse]
  | c :: cs =>
    if c = sep then String.mk cur.reverse :: pySplitCharAux sep [] cs
    else pySplitCharAux sep (c :: cur) cs

/-- Python `s.split(sep)` (single-character separator, no limit). -/
def pySplitChar (sep : Char) (s : String) : List String :=
  pySplitCharAux sep [] s.data

/-- Python whitespace stripped by `int(...)`. -/
def isSpaceChar (c : Char) : Bool :=
  c == ' ' || c == '\t' || c == '\n' || c == '\r'

/-- Strips whitespace from both ends of a character list. -/
def trimSpaces (cs : List Char) : List Char :=
  ((cs.dropWhile isSpaceChar).reverse.dropWhile isSpaceChar).reverse

/-- Value of a decimal digit character. -/
def digitVal (c : Char) : Option Nat :=
  if '0' ≤ c ∧ c ≤ '9' then some (c.toNat - 48) else none

/-- Reads a nonempty all-digit run as a number. -/
def digitsAux (acc : Nat) : List Char → Option Nat
  | [] => some acc
  | c :: cs =>
    match digitVal c with
    | none => none
    | some d => digitsAux (acc * 10 + d) cs

/-- Python `int(s)` on a string: optional surrounding whitespace, optional
sign, then a nonempty digit run; `none` models ValueError. -/
def pyInt (s : String) : Option Int :=
  match trimSpaces s.data with
  | [] => none
  | '-' :: rest =>
    match rest with
    | [] => none
    | _ => (digitsAux 0 rest).map (fun n => -(n : Int))
  | '+' :: rest =>
    match rest with
    | [] => none
    | _ => (digitsAux 0 rest).map (fun n => (n : Int))
  | cs => (digitsAux 0 cs).map (fun n => (n : Int))

/-- Part of `os.path.basename`: the run of characters after the last `/`. -/
def afterLastSlash (cs : List Char) : List Char :=
  cs.foldl (fun acc c => if c = '/' then [] else acc ++ [c]) []

/-- Python `os.path.basename(p)` (posix). -/
def pyBasename (p : String) : String :=
  String.mk (afterLastSlash p.data)

/-- Index of the last `.` in a character list, if any. -/
def lastDotIndex (cs : List Char) : Option Nat :=
  ((List.range cs.length).filter (fun i => cs.getD i ' ' = '.')).getLast?

/-- Root part of Python `os.path.splitext(s)` for a name containing no
`/` (it is only applied to basenames in the source): the text before the
last dot, except that a name consisting of leading dots only is returned
whole. -/
def pySplitextRoot (s : String) : String :=
  match lastDotIndex s.data with
  | none => s
  | some d =>
    if (s.data.take d).all (fun c => c == '.') then s
    else String.mk (s.data.take d)

/-- UTF-8 encoding of one code point, as byte values. -/
def utf8EncodeChar (c : Char) : List Nat :=
  let n := c.toNat
  if n < 128 then [n]
  else if n < 2048 then [192 + n / 64, 128 + n % 64]
  else if n < 65536 then [224 + n / 4096, 128 + n / 64 % 64, 128 + n % 64]
  else [240 + n / 262144, 128 + n / 4096 % 64, 128 + n / 64 % 64, 128 + n % 64]

/-- Python `s.encode('utf-8')`, as a list of byte values. -/
def utf8Bytes (s : String) : List Nat :=
  s.data.foldr (fun c acc => utf8EncodeChar c ++ acc) []

/-- The RFC 4648 base-32 alphabet used by `base64.b32encode`. -/
def b32alphabet : List Char :=
  ['A', 'B', 'C', 'D', 'E', 'F', 'G', 'H', 'I', 'J', 'K', 'L', 'M',
   'N', 'O', 'P', 'Q', 'R', 'S', 'T', 'U', 'V', 'W', 'X', 'Y', 'Z',
   '2', '3', '4', '5', '6', '7']

/-- The `k`-th five-bit field (from the top) of the 40-bit group value `v`,
rendered in the base-32 alphabet. -/
def b32symbol (v k : Nat) : Char :=
  b32alphabet.getD (v / 2 ^ (35 - 5 * k) % 32) 'A'

/-- The 40-bit value of one input group of at most five bytes,
zero-filled on the right. -/
def b32value (bs : List Nat) : Nat :=
  (bs.foldl (fun acc b => acc * 256 + b % 256) 0) * 256 ^ (5 - bs.length)

/-- How many of the eight output characters of a group of `n` input bytes
are data characters (the rest is `=` padding), per RFC 4648. -/
def b32keep (n : Nat) : Nat :=
  [0, 2, 4, 5, 7, 8].getD n 0

/-- Encodes one input group of at most five bytes into eight characters,
padding with `=`. -/
def b32group (bs : List Nat) : List Char :=
  ((List.range 8).map (b32symbol (b32value bs))).take (b32keep bs.length) ++
    List.replicate (8 - b32keep bs.length) '='

/-- Python `base64.b32encode`: the input bytes in groups of five. -/
def b32encodeBytes : List Nat → List Char
  | [] => []
  | b0 :: b1 :: b2 :: b3 :: b4 :: rest =>
    b32group [b0, b1, b2, b3, b4] ++ b32encodeBytes rest
  | [b0] => b32group [b0]
  | [b0, b1] => b32group [b0, b1]
  | [b0, b1, b2] => b32group [b0, b1, b2]
  | [b0, b1, b2, b3] => b32group [b0, b1, b2, b3]

/-- `CmusSoundMenu.DESKTOP_NAME`. -/
def DESKTOP_NAME : String := "cmus"

/-- The `COVER_IMAGE_ENABLE` setting (its shipped value). -/
def COVER_IMAGE_ENABLE : Bool := true

/-- `encoded_uri`: `str(base64.b32encode(uri.encode('utf-8'))).replace('=', '_')`.
Under Python 2, `b32encode` returns a `str` and `str()` is the identity on
it, so the result is the base-32 text with every `=` replaced by `_`. -/
def encoded_uri (uri : String) : String :=
  String.mk ((b32encodeBytes (utf8Bytes uri)).map (fun c => if c = '=' then '_' else c))

/-- `'/com/%s/track/' % DESKTOP_NAME`. -/
def track_id_path : String := "/com/" ++ DESKTOP_NAME ++ "/track/"

/-- `get_track_id`: the fixed object-path namespace followed by the
encoded file path. -/
def get_track_id (track_path : String) : String :=
  track_id_path ++ encoded_uri track_path

/-- `get_title`: explicit title if any, else the raw file value when it
contains a scheme separator, else the file's basename without its
extension, else the empty string. -/
def get_title (title file_name : String) : String :=
  if title ≠ "" then title
  else if file_name ≠ "" then
    if strContains file_name "://" then file_name
    else pySplitextRoot (pyBasename file_name)
  else ""

/-- `get_url`: the raw value when it already carries a scheme, else a
`file://` URI. -/
def get_url (file_name : String) : String :=
  if strContains file_name "://" then file_name else "file://" ++ file_name

/-- `get_cover`.  The effectful pipeline (embedded tag extraction,
directory scan, thumbnail decoding and rewriting) is abstracted as
`oracle`; the guard logic that precedes it in the source is kept: with
cover support disabled, or with no `file` field, or with an empty `file`
field, no cover is resolved. -/
def get_cover (oracle : String → Option String) (new_status : PlayerState) :
    Option String :=
  if COVER_IMAGE_ENABLE = false then none
  else
    match pyGet new_status "file" with
    | none => none
    | some f => if f = "" then none else oracle f

/-- The obligatory field tuple of `set_status`. -/
def obligatory : List String :=
  ["status", "duration", "continue", "repeat", "repeat_current",
   "shuffle", "vol_left", "vol_right"]

/-- Seeding of `new_status` in `set_status`: `title` and `file` start
empty; the obligatory fields start empty on a first observation and are
copied from the previous state otherwise (`self.status[key]` raises
KeyError when the previous dict lacks one). -/
def seedObligatory (previous : Option PlayerState) : Except Unit PlayerState :=
  match previous with
  | none => Except.ok (obligatory.foldl (fun st k => (k, "") :: st) [("title", ""), ("file", "")])
  | some prev =>
    obligatory.foldlM
      (fun st k =>
        match pyGet prev k with
        | none => Except.error ()
        | some v => Except.ok ((k, v) :: st))
      [("title", ""), ("file", "")]

/-- One iteration of the line loop of `set_status`:
`key, value = line.split(" ", 1)` raises ValueError on a line with no
space; a `tag`/`set` line is split once more (IndexError when the rest
has no second part) and stored under the sub-key. -/
def applyLine (st : PlayerState) (line : String) : Except Unit PlayerState :=
  match splitOnce line with
  | none => Except.error ()
  | some (key, value) =>
    if key = "tag" ∨ key = "set" then
      match splitOnce value with
      | none => Except.error ()
      | some (k2, v2) => Except.ok ((k2, v2) :: st)
    else Except.ok ((key, value) :: st)

/-- The line loop of `set_status` over a whole block. -/
def parseLines (st : PlayerState) : List String → Except Unit PlayerState
  | [] => Except.ok st
  | l :: ls =>
    match applyLine st l with
    | Except.error e => Except.error e
    | Except.ok st2 => parseLines st2 ls

/-- The state-construction part of `set_status`: `none` for an empty block
or a `cmus-remote` error echo; otherwise the seeded dict updated by every
line, with `title` recomputed by the fallback rule and a `cover` entry
added only when cover resolution succeeds.  `.error ()` models an
exception escaping `set_status`. -/
def parse_status (oracle : String → Option String) (previous : Option PlayerState)
    (raw_status : String) : Except Unit (Option PlayerState) :=
  if raw_status = "" ∨ pyStartswith raw_status "cmus-remote" = true then Except.ok none
  else
    match seedObligatory previous with
    | Except.error e => Except.error e
    | Except.ok seeded =>
      match parseLines seeded (pySplitlines raw_status) with
      | Except.error e => Except.error e
      | Except.ok parsed =>
        match pyGet parsed "title", pyGet parsed "file" with
        | some t, some f =>
          let parsed2 := ("title", get_title t f) :: parsed
          let parsed3 :=
            match get_cover oracle parsed2 with
            | some c => ("cover", c) :: parsed2
            | none => parsed2
          Except.ok (some parsed3)
        | _, _ => Except.error ()

/-- A value stored in the Metadata map. -/
inductive MetaValue
  | s (v : String)
  | i (v : Int)
  | arr (vs : List String)
deriving DecidableEq

/-- Result of `get_Metadata`: the source returns the empty string (not a
dict) for a missing state. -/
inductive MetadataResult
  | emptyString
  | dict (m : List (String × MetaValue))
deriving DecidableEq

/-- Result of `get_Position`: the empty string for a missing state, a
`dbus.Int32` value, a plain int (the dead second branch), or Python's
implicit `None` when the method falls off its end. -/
inductive PositionResult
  | emptyString
  | int32 (v : Int)
  | intPlain (v : Int)
  | pyNone
deriving DecidableEq

/-- The five protocol property groups recomputed by the diff engine. -/
inductive PropertyGroup
  | PlaybackStatus
  | LoopStatus
  | Shuffle
  | Metadata
  | Volume
deriving DecidableEq

/-- `get_PlaybackStatus`: the `status` field mapped through the fixed
dict, with `Stopped` for anything unknown or missing. -/
def get_PlaybackStatus (new_status : Option PlayerState) : String :=
  match new_status with
  | none => "Stopped"
  | some st =>
    match pyGet st "status" with
    | some "playing" => "Playing"
    | some "paused" => "Paused"
    | some "stopped" => "Stopped"
    | _ => "Stopped"

/-- `get_LoopStatus`.  In the source the membership test is
`all(('continue' in s, 'repeat' in s, 'repeat_current'))` whose third
element is the string literal itself (always truthy), so only `continue`
and `repeat` are required to be present; `s['repeat_current']` is then
indexed unconditionally in the `continue == 'true'` branch, which raises
KeyError when the field is absent (modelled by `.error ()`). -/
def get_LoopStatus (new_status : Option PlayerState) : Except Unit String :=
  match new_status with
  | none => Except.ok ""
  | some st =>
    if (pyGet st "continue").isSome ∧ (pyGet st "repeat").isSome then
      if pyGet st "continue" = some "false" then Except.ok "None"
      else if pyGet st "continue" = some "true" then
        match pyGet st "repeat_current" with
        | none => Except.error ()
        | some rc =>
          if rc = "true" then Except.ok "Track"
          else if pyGet st "repeat" = some "true" then Except.ok "Playlist"
          else Except.ok "None"
      else Except.ok ""
    else Except.ok ""

/-- `get_Shuffle`: true iff the `shuffle` field is present and nonempty
(`bool()` of a nonempty string is true regardless of its text). -/
def get_Shuffle (new_status : Option PlayerState) : Bool :=
  match new_status with
  | none => false
  | some st =>
    match pyGet st "shuffle" with
    | some v => !v.data.isEmpty
    | none => false

/-- `get_Volume`: `(int(vol_left) + int(vol_right)) / 200.0` when both
channels are present (ValueError from `int` modelled by `.error ()`),
`0.0` otherwise. -/
def get_Volume (new_status : Option PlayerState) : Except Unit Rat :=
  match new_status with
  | none => Except.ok 0
  | some st =>
    match pyGet st "vol_left", pyGet st "vol_right" with
    | some l, some r =>
      match pyInt l, pyInt r with
      | some li, some ri => Except.ok (((li + ri : Int) : Rat) / 200)
      | _, _ => Except.error ()
    | _, _ => Except.ok 0

/-- `dbus.Int64` range check (its constructor raises on overflow). -/
def int64InRange (v : Int) : Bool :=
  decide (-(2 ^ 63) ≤ v ∧ v < 2 ^ 63)

/-- `dbus.Int32` range check. -/
def int32InRange (v : Int) : Bool :=
  decide (-(2 ^ 31) ≤ v ∧ v < 2 ^ 31)

/-- The `mpris:length` entry of the Metadata map:
`dbus.Int64(int(new_status['duration']) * 1000)` guarded on the field
being present and nonempty. -/
def durationEntry (st : PlayerState) : Except Unit (List (String × MetaValue)) :=
  match pyGet st "duration" with
  | none => Except.ok []
  | some v =>
    if v ≠ "" then
      match pyInt v with
      | none => Except.error ()
      | some d =>
        if int64InRange (d * 1000) then Except.ok [("mpris:length", MetaValue.i (d * 1000))]
        else Except.error ()
    else Except.ok []

/-- A Metadata entry copied (through `f`) from a present, nonempty field. -/
def optStrEntry (st : PlayerState) (key name : String) (f : String → MetaValue) :
    List (String × MetaValue) :=
  match pyGet st key with
  | some v => if v ≠ "" then [(name, f v)] else []
  | none => []

/-- A Metadata entry parsed with `int(...)` from a present, nonempty
field (ValueError modelled by `.error ()`). -/
def optIntEntry (st : PlayerState) (key name : String) :
    Except Unit (List (String × MetaValue)) :=
  match pyGet st key with
  | none => Except.ok []
  | some v =>
    if v ≠ "" then
      match pyInt v with
      | some i => Except.ok [(name, MetaValue.i i)]
      | none => Except.error ()
    else Except.ok []

/-- The Metadata entries after `mpris:trackid` and `mpris:length`, in
source order.  The two `int(...)` conversions are the only fallible steps;
every other entry is a pure copy or split. -/
def metaRest (st : PlayerState) : Except Unit (List (String × MetaValue)) :=
  match optIntEntry st "discnumber" "xesam:discNumber" with
  | Except.error e => Except.error e
  | Except.ok disc =>
    match optIntEntry st "tracknumber" "xesam:trackNumber" with
    | Except.error e => Except.error e
    | Except.ok track =>
      Except.ok
        (optStrEntry st "cover" "mpris:artUrl" (fun v => MetaValue.s (get_url v)) ++
         optStrEntry st "album" "xesam:album" MetaValue.s ++
         optStrEntry st "albumartist" "xesam:albumArtist" (fun v => MetaValue.arr (pySplitChar '/' v)) ++
         optStrEntry st "artist" "xesam:artist" (fun v => MetaValue.arr (pySplitChar '/' v)) ++
         optStrEntry st "comment" "xesam:comment" (fun v => MetaValue.arr (pySplitChar '\n' v)) ++
         optStrEntry st "composer" "xesam:composer" (fun v => MetaValue.arr (pySplitChar '/' v)) ++
         optStrEntry st "date" "xesam:contentCreated" MetaValue.s ++
         disc ++
         optStrEntry st "genre" "xesam:genre" (fun v => MetaValue.arr (pySplitChar '/' v)) ++
         optStrEntry st "title" "xesam:title" MetaValue.s ++
         track ++
         optStrEntry st "file" "xesam:url" (fun v => MetaValue.s (get_url v)))

/-- `get_Metadata`: the empty string for a missing state; otherwise the
map opened by `mpris:trackid` (whose construction indexes
`new_status['file']` unconditionally — KeyError when absent), followed by
the optional entries. -/
def get_Metadata (new_status : Option PlayerState) : Except Unit MetadataResult :=
  match new_status with
  | none => Except.ok MetadataResult.emptyString
  | some st =>
    match pyGet st "file" with
    | none => Except.error ()
    | some f =>
      match durationEntry st with
      | Except.error e => Except.error e
      | Except.ok dur =>
        match metaRest st with
        | Except.error e => Except.error e
        | Except.ok rest =>
          Except.ok (MetadataResult.dict
            (("mpris:trackid", MetaValue.s (get_track_id f)) :: (dur ++ rest)))

/-- The `'position' in new_status and len(new_status['position']) > 0`
test of `get_Position`. -/
def positionFieldSet (st : PlayerState) : Bool :=
  match pyGet st "position" with
  | some p => !p.data.isEmpty
  | none => false

/-- `get_Position`.  When the field is absent the source calls
`self.get_status()` — which rebinds `self.status` to a fresh parse, here
modelled by the unused argument `fresh` — and then re-tests the *local*
`new_status`, which is unchanged; the method therefore falls off its end
and returns `None`. -/
def get_Position (new_status : Option PlayerState) (fresh : Option PlayerState) :
    Except Unit PositionResult :=
  match new_status with
  | none => Except.ok PositionResult.emptyString
  | some st =>
    if positionFieldSet st then
      match pyGet st "position" with
      | none => Except.error ()
      | some p =>
        match pyInt p with
        | none => Except.error ()
        | some v =>
          if int32InRange (v * 1000) then Except.ok (PositionResult.int32 (v * 1000))
          else Except.error ()
    else
      if positionFieldSet st then
        match pyGet st "position" with
        | none => Except.error ()
        | some p =>
          match pyInt p with
          | none => Except.error ()
          | some v => Except.ok (PositionResult.intPlain (v * 1000))
      else Except.ok PositionResult.pyNone

/-- The field-to-group mapping `status_dict` of `_status_changed`
(dict iteration order is immaterial: the result is a set). -/
def status_dict : List (String × PropertyGroup) :=
  [("status", PropertyGroup.PlaybackStatus),
   ("continue", PropertyGroup.LoopStatus),
   ("repeat", PropertyGroup.LoopStatus),
   ("repeat_current", PropertyGroup.LoopStatus),
   ("shuffle", PropertyGroup.Shuffle),
   ("vol_left", PropertyGroup.Volume),
   ("vol_right", PropertyGroup.Volume),
   ("artist", PropertyGroup.Metadata),
   ("title", PropertyGroup.Metadata),
   ("album", PropertyGroup.Metadata)]

/-- Python `set.add`: a duplicate-free list standing for the `changed`
set. -/
def pySetInsert (g : PropertyGroup) (s : List PropertyGroup) : List PropertyGroup :=
  if g ∈ s then s else g :: s

/-- All five groups, in the order of the first-observation literal of
`_status_changed`. -/
def allGroups : List PropertyGroup :=
  [PropertyGroup.PlaybackStatus, PropertyGroup.LoopStatus,
   PropertyGroup.Shuffle, PropertyGroup.Metadata, PropertyGroup.Volume]

/-- One iteration of the key loop of `_status_changed`: a key adds its
group when it is present in the new state and either absent from the
previous state or bound to a different string there. -/
def diffStep (prev nxt : PlayerState) (acc : List PropertyGroup)
    (kg : String × PropertyGroup) : List PropertyGroup :=
  match pyGet nxt kg.1 with
  | none => acc
  | some v =>
    match pyGet prev kg.1 with
    | none => pySetInsert kg.2 acc
    | some pv => if pv ≠ v then pySetInsert kg.2 acc else acc

/-- The `changed` set computed by `_status_changed`: empty for a missing
new state; all five groups when the previous state is missing; otherwise
the groups of the changed mapped fields. -/
def changedGroups (previous nxt : Option PlayerState) : List PropertyGroup :=
  match nxt with
  | none => []
  | some new_status =>
    match previous with
    | none => allGroups
    | some prev => status_dict.foldl (diffStep prev new_status) []

/-- A recomputed property value carried by the change signal. -/
inductive PropValue
  | playback (s : String)
  | loop (s : String)
  | shuffle (b : Bool)
  | metadata (m : MetadataResult)
  | volume (q : Rat)
deriving DecidableEq

/-- The `prop_dict` recomputation of one group on the new state. -/
def propValue (g : PropertyGroup) (new_status : Option PlayerState) :
    Except Unit PropValue :=
  match g with
  | PropertyGroup.PlaybackStatus => Except.ok (PropValue.playback (get_PlaybackStatus new_status))
  | PropertyGroup.LoopStatus => (get_LoopStatus new_status).map PropValue.loop
  | PropertyGroup.Shuffle => Except.ok (PropValue.shuffle (get_Shuffle new_status))
  | PropertyGroup.Metadata => (get_Metadata new_status).map PropValue.metadata
  | PropertyGroup.Volume => (get_Volume new_status).map PropValue.volume

/-- The `new_properties` loop: each changed group paired with its
recomputed value; an exception in a getter aborts the emission. -/
def emitProps (new_status : Option PlayerState) :
    List PropertyGroup → Except Unit (List (PropertyGroup × PropValue))
  | [] => Except.ok []
  | g :: gs =>
    match propValue g new_status with
    | Except.error e => Except.error e
    | Except.ok v =>
      match emitProps new_status gs with
      | Except.error e => Except.error e
      | Except.ok rest => Except.ok ((g, v) :: rest)

/-- `_status_changed`: computes the changed set and, when it is nonempty,
emits the `PropertiesChanged` signal carrying the recomputed values
(`none` = no signal; the set's iteration order is fixed to the canonical
group order, which is immaterial for a Python set). -/
def statusChangedEmit (previous nxt : Option PlayerState) :
    Except Unit (Option (List (PropertyGroup × PropValue))) :=
  let changed := changedGroups previous nxt
  if changed = [] then Except.ok none
  else
    match emitProps nxt (allGroups.filter (fun g => g ∈ changed)) with
    | Except.error e => Except.error e
    | Except.ok props => Except.ok (some props)

/-- The whole of `set_status`: build the new state, and invoke
`_status_changed` — hence possibly the change signal — only when the
previous state is not `None`.  Returns the new state together with the
emitted signal content, if any. -/
def set_status (oracle : String → Option String) (previous : Option PlayerState)
    (raw_status : String) :
    Except Unit (Option PlayerState × Option (List (PropertyGroup × PropValue))) :=
  match parse_status oracle previous raw_status with
  | Except.error e => Except.error e
  | Except.ok new_status =>
    match previous with
    | none => Except.ok (new_status, none)
    | some _ =>
      match statusChangedEmit previous new_status with
      | Except.error e => Except.error e
      | Except.ok em => Except.ok (new_status, em)

/-- CPython 2 orders every number below every string, so an `int > str`
comparison is always false. -/
def pyIntGtStr (_i : Int) (_s : String) : Bool := false

/-- `SetPosition(track_id, position)`: the position is floor-divided by
1000, the call is dropped for a missing state, a foreign track id or a
negative position, the duration guard compares an int against the stored
duration *string* (always false under Python 2), and otherwise one
absolute seek command is issued.  The result is the list of issued
`cmus-remote` commands. -/
def SetPosition (status : Option PlayerState) (track_id : String) (position : Int) :
    Except Unit (List String) :=
  let pos := Int.fdiv position 1000
  match status with
  | none => Except.ok []
  | some st =>
    match pyGet st "file" with
    | none => Except.error ()
    | some f =>
      if track_id ≠ get_track_id f then Except.ok []
      else if pos < 0 then Except.ok []
      else
        match pyGet st "duration" with
        | none => Except.error ()
        | some d =>
          if pyIntGtStr pos d then Except.ok []
          else Except.ok ["-k " ++ toString pos]

/-- Python `int()` truncation of a rational toward zero. -/
def pyTrunc (q : Rat) : Int := Int.tdiv q.num (q.den : Int)

/-- Python `%`-formatting of a format string against one int argument:
`%d` renders the argument, `%%` a literal percent; a trailing lone `%`
is a ValueError (incomplete format), and an unconverted argument is a
TypeError — both modelled by `none`.  The Bool tracks whether the
argument has been consumed. -/
def pyFormatDAux (arg : Int) : Bool → List Char → Option (List Char × Bool)
  | _, '%' :: [] => none
  | used, '%' :: '%' :: rest =>
    (pyFormatDAux arg used rest).map (fun p => ('%' :: p.1, p.2))
  | used, '%' :: 'd' :: rest =>
    if used then none
    else (pyFormatDAux arg true rest).map (fun p => ((toString arg).data ++ p.1, p.2))
  | _, '%' :: _ :: _ => none
  | used, c :: rest => (pyFormatDAux arg used rest).map (fun p => (c :: p.1, p.2))
  | used, [] => some ([], used)

/-- Python `fmt % arg` for one int argument. -/
def pyFormatD (fmt : String) (arg : Int) : Option String :=
  match pyFormatDAux arg false fmt.data with
  | some (r, true) => some (String.mk r)
  | some (_, false) => none
  | none => none

/-- `set_Volume(value)`: nothing for a missing state; otherwise the float
is truncated by `int()` *before* the range tests, `< 0` issues the 0%
command, `> 1` the 100% command, and the `0 <= value <= 1` branch formats
`'-v %d%' % value` — an incomplete format, which raises ValueError before
any command is issued (the `value is None` test after `int()` can never
hold and is dropped).  The result is the list of issued commands. -/
def set_Volume (status : Option PlayerState) (value : Rat) : Except Unit (List String) :=
  match status with
  | none => Except.ok []
  | some _ =>
    let v : Int := pyTrunc value
    if v < 0 then Except.ok ["-v 0%"]
    else if v > 1 then Except.ok ["-v 100%"]
    else if 0 ≤ v ∧ v ≤ 1 then
      match pyFormatD "-v %d%" v with
      | none => Except.error ()
      | some cmd => Except.ok [cmd]
    else Except.ok []

/-! Helper lemmas. -/

/-- `List.getD` returns an element of the list or the default. -/
theorem getD_mem_or {α : Type} (l : List α) (n : Nat) (d : α) :
    l.getD n d ∈ l ∨ l.getD n d = d := by
  induction l generalizing n with
  | nil => right; simp [List.getD]
  | cons a t ih =>
    cases n with
    | zero => left; simp
    | succ m =>
      rcases ih m with h | h
      · left; simpa using Or.inr h
      · right; simpa using h

/-- Every base-32 symbol is an alphabet character. -/
theorem b32symbol_mem (v k : Nat) : b32symbol v k ∈ b32alphabet := by
  unfold b32symbol
  rcases getD_mem_or b32alphabet (v / 2 ^ (35 - 5 * k) % 32) 'A' with h | h
  · exact h
  · rw [h]; decide

/-- Every character of one encoded group is an alphabet character or the
padding character. -/
theorem mem_b32group (bs : List Nat) (c : Char) (h : c ∈ b32group bs) :
    c ∈ b32alphabet ∨ c = '=' := by
  unfold b32group at h
  rcases List.mem_append.mp h with h1 | h1
  · have h2 := List.take_subset _ _ h1
    rcases List.mem_map.mp h2 with ⟨k, _, hk⟩
    exact Or.inl (hk ▸ b32symbol_mem _ _)
  · exact Or.inr (List.eq_of_mem_replicate h1)

/-- Every character of a base-32 encoding is an alphabet character or the
padding character. -/
theorem mem_b32encodeBytes :
    ∀ (bs : List Nat) (c : Char), c ∈ b32encodeBytes bs → c ∈ b32alphabet ∨ c = '='
  | [], c, h => absurd h (by simp [b32encodeBytes])
  | [b0], c, h => mem_b32group _ c (by simpa [b32encodeBytes] using h)
  | [b0, b1], c, h => mem_b32group _ c (by simpa [b32encodeBytes] using h)
  | [b0, b1, b2], c, h => mem_b32group _ c (by simpa [b32encodeBytes] using h)
  | [b0, b1, b2, b3], c, h => mem_b32group _ c (by simpa [b32encodeBytes] using h)
  | b0 :: b1 :: b2 :: b3 :: b4 :: rest, c, h => by
    rcases List.mem_append.mp (by simpa [b32encodeBytes] using h) with h1 | h1
    · exact mem_b32group _ c h1
    · exact mem_b32encodeBytes rest c h1

/-- The characters admissible in a track id's encoded part. -/
def uriSafeChar (c : Char) : Bool :=
  decide (('A' ≤ c ∧ c ≤ 'Z') ∨ ('a' ≤ c ∧ c ≤ 'z') ∨ ('0' ≤ c ∧ c ≤ '9') ∨ c = '_')

/-- Every alphabet character is URI-safe. -/
theorem alphabet_safe (c : Char) (h : c ∈ b32alphabet) : uriSafeChar c = true :=
  List.all_eq_true.mp (by decide : b32alphabet.all uriSafeChar = true) c h

/-- Every character of an encoded URI is URI-safe and is not the base-32
padding character. -/
theorem encoded_uri_safe (p : String) :
    ∀ c ∈ (encoded_uri p).data, uriSafeChar c = true ∧ c ≠ '=' := by
  intro c hc
  have hd : (encoded_uri p).data =
      (b32encodeBytes (utf8Bytes p)).map (fun x => if x = '=' then '_' else x) := rfl
  rw [hd] at hc
  rcases List.mem_map.mp hc with ⟨c0, hc0, heq⟩
  by_cases h0 : c0 = '='
  · rw [if_pos h0] at heq
    rw [← heq]
    exact ⟨by decide, by decide⟩
  · rw [if_neg h0] at heq
    rcases mem_b32encodeBytes _ c0 hc0 with hm | he
    · refine ⟨heq ▸ alphabet_safe c0 hm, ?_⟩
      rw [← heq]
      exact h0
    · exact absurd he h0

/-- Membership after a Python-set insertion. -/
theorem mem_pySetInsert (g a : PropertyGroup) (s : List PropertyGroup)
    (h : g ∈ pySetInsert a s) : g = a ∨ g ∈ s := by
  unfold pySetInsert at h
  by_cases ha : a ∈ s
  · rw [if_pos ha] at h; exact Or.inr h
  · rw [if_neg ha] at h
    rcases List.mem_cons.mp h with h1 | h1
    · exact Or.inl h1
    · exact Or.inr h1

/-- A group appears after one diff iteration only when it was already
present or its key is present in the new state with a value different
from the previous state's. -/
theorem mem_diffStep (prev nxt : PlayerState) (acc : List PropertyGroup)
    (kg : String × PropertyGroup) (g : PropertyGroup)
    (h : g ∈ diffStep prev nxt acc kg) :
    g ∈ acc ∨ (g = kg.2 ∧ (pyGet nxt kg.1).isSome = true ∧ pyGet prev kg.1 ≠ pyGet nxt kg.1) := by
  unfold diffStep at h
  split at h
  · exact Or.inl h
  · rename_i v hn
    split at h
    · rename_i hp
      rcases mem_pySetInsert g kg.2 acc h with h1 | h1
      · exact Or.inr ⟨h1, by simp [hn], by simp [hp, hn]⟩
      · exact Or.inl h1
    · rename_i pv hp
      split at h
      · rename_i hv
        rcases mem_pySetInsert g kg.2 acc h with h1 | h1
        · refine Or.inr ⟨h1, by simp [hn], ?_⟩
          rw [hp, hn]
          simpa using hv
        · exact Or.inl h1
      · exact Or.inl h

/-- A group appears in the diff fold only when it was already present or
one of its keys justifies it from the new state. -/
theorem mem_diffFold (prev nxt : PlayerState) :
    ∀ (pairs : List (String × PropertyGroup)) (acc : List PropertyGroup) (g : PropertyGroup),
      g ∈ pairs.foldl (diffStep prev nxt) acc →
      g ∈ acc ∨ ∃ k, (k, g) ∈ pairs ∧ (pyGet nxt k).isSome = true ∧ pyGet prev k ≠ pyGet nxt k
  | [], acc, g, h => Or.inl (by simpa using h)
  | kg :: rest, acc, g, h => by
    rcases mem_diffFold prev nxt rest (diffStep prev nxt acc kg) g (by simpa using h) with
      h1 | ⟨k, hk, h2, h3⟩
    · rcases mem_diffStep prev nxt acc kg g h1 with h2 | ⟨he, h3, h4⟩
      · exact Or.inl h2
      · exact Or.inr ⟨kg.1, by simp [he], h3, h4⟩
    · exact Or.inr ⟨k, by simp [hk], h2, h3⟩

/-- A block containing a spaceless line makes the line loop raise. -/
theorem parseLines_error_of_malformed (l : String) (hne : splitOnce l = none) :
    ∀ (ls : List String) (st : PlayerState), l ∈ ls → parseLines st ls = Except.error ()
  | [], _, hl => absurd hl (List.not_mem_nil l)
  | a :: rest, st, hl => by
    rcases List.mem_cons.mp hl with h1 | h1
    · subst h1
      unfold parseLines applyLine
      rw [hne]
    · unfold parseLines
      rcases ha : applyLine st a with e | st2
      · cases e; rfl
      · exact parseLines_error_of_malformed l hne rest st2 h1

/-! Claim theorems. -/

/-- C1 counterexample: processing the very first observed status block
(previous state `None`) with `set_status` emits *no* change signal — the
signal component of the result is `none`, not an announcement of the five
property groups — because `set_status` only calls `_status_changed` when
`self.status is not None`. -/
theorem c1_counterexample :
    (set_status (fun _ => none) none "status playing").map Prod.snd = Except.ok none := rfl

/-- C1 (amended): diffing `previous = None` against any valid state does
yield all five property groups inside `_status_changed`, but `set_status`
skips `_status_changed` entirely when the previous state is `None`, so
processing the first observation emits no change signal. -/
theorem c1_first_observation (oracle : String → Option String) (raw : String)
    (s : PlayerState) (ns : Option PlayerState)
    (em : Option (List (PropertyGroup × PropValue)))
    (h : set_status oracle none raw = Except.ok (ns, em)) :
    changedGroups none (some s) = allGroups ∧ em = none := by
  refine ⟨rfl, ?_⟩
  unfold set_status at h
  split at h
  · cases h
  · simp only [Except.ok.injEq, Prod.mk.injEq] at h
    exact h.2.symm

/-- C1 witness: the amended claim applied to the minimal playing block. -/
theorem c1_first_observation_witness :
    changedGroups none (some [("status", "playing")]) = allGroups ∧
    (none : Option (List (PropertyGroup × PropValue))) = none :=
  c1_first_observation (fun _ => none) "status playing" [("status", "playing")] _ none rfl

/-- C2 counterexample: a block containing the spaceless line `malformed`
is not parsed into a state from its remaining lines — the tuple unpacking
of `line.split(" ", 1)` raises and the whole block is aborted. -/
theorem c2_counterexample :
    parse_status (fun _ => none) none "status playing\nmalformed" = Except.error () := rfl

/-- C2 (amended): whenever a raw block that is neither empty nor a
`cmus-remote` error echo contains a line with no space, `set_status`
raises (aborting the whole block) instead of skipping the line. -/
theorem c2_malformed_aborts (oracle : String → Option String) (previous : Option PlayerState)
    (raw l : String) (hl : l ∈ pySplitlines raw) (hns : splitOnce l = none)
    (hpre : pyStartswith raw "cmus-remote" = false) :
    parse_status oracle previous raw = Except.error () := by
  have hraw : ¬(raw = "" ∨ pyStartswith raw "cmus-remote" = true) := by
    rintro (h1 | h1)
    · subst h1; simp [pySplitlines] at hl
    · rw [hpre] at h1; cases h1
  unfold parse_status
  rw [if_neg hraw]
  split
  · rfl
  · rename_i seeded _
    rw [parseLines_error_of_malformed l hns (pySplitlines raw) seeded hl]

/-- C2 witness: the amended claim applied to a concrete block with a
spaceless second line. -/
theorem c2_malformed_aborts_witness :
    parse_status (fun _ => none) none "status playing\nbad" = Except.error () :=
  c2_malformed_aborts (fun _ => none) none "status playing\nbad" "bad" (by decide) rfl rfl

/-- C3: parsing the block `status playing` from a first observation
(previous state `None`) succeeds — whatever the cover oracle does — and
yields a state in which every obligatory field is present and bound to
the empty string, except `status`, which is `playing`. -/
theorem c3_minimal_block (oracle : String → Option String) :
    ∃ st, parse_status oracle none "status playing" = Except.ok (some st) ∧
      pyGet st "status" = some "playing" ∧
      pyGet st "duration" = some "" ∧
      pyGet st "continue" = some "" ∧
      pyGet st "repeat" = some "" ∧
      pyGet st "repeat_current" = some "" ∧
      pyGet st "shuffle" = some "" ∧
      pyGet st "vol_left" = some "" ∧
      pyGet st "vol_right" = some "" ∧
      pyGet st "title" = some "" ∧
      pyGet st "file" = some "" := by
  exact ⟨_, rfl, rfl, rfl, rfl, rfl, rfl, rfl, rfl, rfl, rfl, rfl⟩

/-- C4 counterexample: with `repeat_current` missing entirely and
`continue = false`, `get_LoopStatus` returns `None` — not the empty
string the claim requires for a missing field — and with all three fields
present but `continue` neither `true` nor `false`, it returns the empty
string — not the `None` the claim's final all-present case requires. -/
theorem c4_counterexample :
    get_LoopStatus (some [("continue", "false"), ("repeat", "true")]) = Except.ok "None" ∧
    get_LoopStatus (some [("continue", ""), ("repeat", "true"), ("repeat_current", "false")]) =
      Except.ok "" := ⟨rfl, rfl⟩

/-- C4 (amended): full case analysis of `get_LoopStatus`.  The membership
test `all(('continue' in s, 'repeat' in s, 'repeat_current'))` only
requires `continue` and `repeat` (its third element is a truthy string
literal), so: missing state, missing `continue`, missing `repeat`, or a
`continue` value other than `true`/`false` give the empty string;
`continue = false` gives `None` even when `repeat_current` is absent;
`continue = true` indexes `repeat_current` unconditionally — KeyError
when absent — and otherwise selects `Track`, `Playlist` or `None`. -/
theorem c4_loopstatus_cases (st : PlayerState) :
    (get_LoopStatus none = Except.ok "") ∧
    (pyGet st "continue" = none → get_LoopStatus (some st) = Except.ok "") ∧
    (pyGet st "repeat" = none → get_LoopStatus (some st) = Except.ok "") ∧
    ((pyGet st "repeat").isSome = true → pyGet st "continue" = some "false" →
      get_LoopStatus (some st) = Except.ok "None") ∧
    ((pyGet st "repeat").isSome = true → pyGet st "continue" = some "true" →
      pyGet st "repeat_current" = none → get_LoopStatus (some st) = Except.error ()) ∧
    ((pyGet st "repeat").isSome = true → pyGet st "continue" = some "true" →
      pyGet st "repeat_current" = some "true" → get_LoopStatus (some st) = Except.ok "Track") ∧
    (∀ rc, pyGet st "continue" = some "true" → pyGet st "repeat" = some "true" →
      pyGet st "repeat_current" = some rc → rc ≠ "true" →
      get_LoopStatus (some st) = Except.ok "Playlist") ∧
    (∀ rc rv, pyGet st "continue" = some "true" → pyGet st "repeat" = some rv →
      rv ≠ "true" → pyGet st "repeat_current" = some rc → rc ≠ "true" →
      get_LoopStatus (some st) = Except.ok "None") ∧
    (∀ cv, pyGet st "continue" = some cv → (pyGet st "repeat").isSome = true →
      cv ≠ "true" → cv ≠ "false" → get_LoopStatus (some st) = Except.ok "") := by
  refine ⟨rfl, ?_, ?_, ?_, ?_, ?_, ?_, ?_, ?_⟩
  · intro h; simp [get_LoopStatus, h]
  · intro h; simp [get_LoopStatus, h]
  · intro hr hc; simp [get_LoopStatus, hc, hr]
  · intro hr hc hrc; simp [get_LoopStatus, hc, hr, hrc]
  · intro hr hc hrc; simp [get_LoopStatus, hc, hr, hrc]
  · intro rc hc hr hrc hne; simp [get_LoopStatus, hc, hr, hrc, hne]
  · intro rc rv hc hr hrv hrc hne; simp [get_LoopStatus, hc, hr, hrc, hne, hrv]
  · intro cv hc hr h1 h2; simp [get_LoopStatus, hc, hr, h1, h2]

/-- C4 witness: the amended claim's `Playlist` case on a concrete state. -/
theorem c4_loopstatus_cases_witness :
    get_LoopStatus (some [("continue", "true"), ("repeat", "true"), ("repeat_current", "false")]) =
      Except.ok "Playlist" :=
  (c4_loopstatus_cases
    [("continue", "true"), ("repeat", "true"), ("repeat_current", "false")]).2.2.2.2.2.2.1
    "false" rfl rfl rfl (by decide)

/-- C5: the track id is a pure function of the file path — equal paths
give equal ids — it is the fixed namespace `/com/cmus/track/` followed by
the encoded path, and the encoded part consists of URI-safe characters
only (`A`-`Z`, `a`-`z`, `0`-`9`, `_`), with no base-32 padding character
surviving. -/
theorem c5_track_id (p q : String) (h : p = q) :
    get_track_id p = get_track_id q ∧
    get_track_id p = track_id_path ++ encoded_uri p ∧
    track_id_path = "/com/cmus/track/" ∧
    ∀ c ∈ (encoded_uri p).data, uriSafeChar c = true ∧ c ≠ '=' :=
  ⟨by rw [h], rfl, by decide, encoded_uri_safe p⟩

/-- C5 witness: the claim applied to a concrete path. -/
theorem c5_track_id_witness :
    get_track_id "/x/a.mp3" = get_track_id "/x/a.mp3" ∧
    get_track_id "/x/a.mp3" = track_id_path ++ encoded_uri "/x/a.mp3" ∧
    track_id_path = "/com/cmus/track/" ∧
    ∀ c ∈ (encoded_uri "/x/a.mp3").data, uriSafeChar c = true ∧ c ≠ '=' :=
  c5_track_id "/x/a.mp3" "/x/a.mp3" rfl

/-- C6: the duration bound of `SetPosition` never drops a call.  With the
current track at `/x/a.mp3` and a stored duration of 10 seconds, a seek
to 99 000 000 microseconds — far beyond the duration — still issues a
seek command, because `position > self.status['duration']` compares an
int against a string, which is always false under Python 2.  The track-id
and negative-position guards, by contrast, do drop the call. -/
theorem c6_duration_guard_dead :
    SetPosition (some [("file", "/x/a.mp3"), ("duration", "10")])
      (get_track_id "/x/a.mp3") 99000000 = Except.ok ["-k 99000"] ∧
    SetPosition (some [("file", "/x/a.mp3"), ("duration", "10")]) "/bogus" 5000000 =
      Except.ok [] ∧
    SetPosition (some [("file", "/x/a.mp3"), ("duration", "10")])
      (get_track_id "/x/a.mp3") (-5000000) = Except.ok [] :=
  ⟨rfl, rfl, rfl⟩

/-- C7 counterexample: with a duration of 200 seconds the Metadata map
carries `mpris:length = 200000` — the stored value times 1000, not the
200 000 000 microseconds the claim requires. -/
theorem c7_counterexample :
    get_Metadata (some [("duration", "200"), ("file", "")]) =
      Except.ok (MetadataResult.dict
        [("mpris:trackid", MetaValue.s "/com/cmus/track/"),
         ("mpris:length", MetaValue.i 200000)]) ∧
    (200000 : Int) ≠ 200 * 1000000 :=
  ⟨rfl, by decide⟩

/-- C7 (amended): whenever the duration field holds a nonempty integer
string of value `d` and `get_Metadata` succeeds, the `mpris:length` entry
is `d * 1000` — the stored seconds value scaled by 1000, not by
1 000 000. -/
theorem c7_length_millis (st : PlayerState) (v : String) (d : Int)
    (m : List (String × MetaValue))
    (hv : pyGet st "duration" = some v) (hne : v ≠ "") (hd : pyInt v = some d)
    (hm : get_Metadata (some st) = Except.ok (MetadataResult.dict m)) :
    List.lookup "mpris:length" m = some (MetaValue.i (d * 1000)) := by
  have hdur : durationEntry st = Except.ok [("mpris:length", MetaValue.i (d * 1000))] ∨
      durationEntry st = Except.error () := by
    unfold durationEntry
    simp only [hv, hd]
    rw [if_pos hne]
    by_cases hb : int64InRange (d * 1000) = true
    · left; rw [if_pos hb]
    · right; rw [if_neg hb]
  unfold get_Metadata at hm
  split at hm
  · cases hm
  · rename_i f hf
    injection hf with hf2
    subst hf2
    split at hm
    · cases hm
    · rename_i f2 hfile
      split at hm
      · cases hm
      · rename_i dur hdur2
        split at hm
        · cases hm
        · rename_i rest hrest
          rcases hdur with hdur | hdur
          · rw [hdur] at hdur2
            injection hdur2 with hd2
            subst hd2
            simp only [Except.ok.injEq, MetadataResult.dict.injEq] at hm
            rw [← hm]
            simp [List.lookup]
          · rw [hdur] at hdur2
            cases hdur2

/-- C7 witness: the amended claim applied to a concrete 200-second
state. -/
theorem c7_length_millis_witness :
    List.lookup "mpris:length"
      [("mpris:trackid", MetaValue.s "/com/cmus/track/"),
       ("mpris:length", MetaValue.i 200000)] = some (MetaValue.i 200000) :=
  c7_length_millis [("duration", "200"), ("file", "")] "200" 200 _ rfl (by decide) rfl rfl

/-- C8: setting the Volume property does not issue the clamped volume
command.  `int(value)` truncates the float *before* the range tests, and
the in-range branch formats `'-v %d%' % value`, an incomplete format that
raises ValueError, so every request that truncates into `{0, 1}` — in
particular 0.5, 1, -0.5, and 1.5 — raises with no command at all; only
requests truncating below 0 or above 1 issue the clamped 0% / 100%
commands. -/
theorem c8_volume_crash :
    set_Volume (some [("status", "playing")]) (Rat.mk' 1 2 (by decide) (by decide)) =
      Except.error () ∧
    set_Volume (some [("status", "playing")]) (Rat.mk' 1 1 (by decide) (by decide)) =
      Except.error () ∧
    set_Volume (some [("status", "playing")]) (Rat.mk' (-1) 2 (by decide) (by decide)) =
      Except.error () ∧
    set_Volume (some [("status", "playing")]) (Rat.mk' 3 2 (by decide) (by decide)) =
      Except.error () ∧
    set_Volume (some [("status", "playing")]) (Rat.mk' (-3) 2 (by decide) (by decide)) =
      Except.ok ["-v 0%"] ∧
    set_Volume (some [("status", "playing")]) (Rat.mk' 5 2 (by decide) (by decide)) =
      Except.ok ["-v 100%"] :=
  ⟨rfl, rfl, rfl, rfl, rfl, rfl⟩

/-- C9: when the position field is absent, `get_Position` returns `None`
no matter what the re-queried state holds — the re-check reads the stale
local state, so the fresh value is never reported — while a present field
is reported as the stored value times 1000. -/
theorem c9_requery_ignores_fresh (fresh : Option PlayerState) :
    get_Position (some [("status", "playing")]) fresh = Except.ok PositionResult.pyNone ∧
    get_Position (some [("position", "7")]) fresh = Except.ok (PositionResult.int32 7000) :=
  ⟨rfl, rfl⟩

/-- C10: a property group enters the diff only on the strength of a field
that is present in the new state (and absent from, or differently valued
in, the previous state); a field present only in the previous state never
contributes. -/
theorem c10_diff_needs_next_field (prev nxt : PlayerState) (g : PropertyGroup)
    (h : g ∈ changedGroups (some prev) (some nxt)) :
    ∃ k, (k, g) ∈ status_dict ∧ (pyGet nxt k).isSome = true ∧ pyGet prev k ≠ pyGet nxt k := by
  rcases mem_diffFold prev nxt status_dict [] g h with h1 | h1
  · cases h1
  · exact h1

/-- C10 witness: the claim applied to two concrete states differing in
`title`. -/
theorem c10_diff_needs_next_field_witness :
    PropertyGroup.Metadata ∈ changedGroups (some [("title", "A")]) (some [("title", "B")]) ∧
    ∃ k, (k, PropertyGroup.Metadata) ∈ status_dict ∧
      (pyGet [("title", "B")] k).isSome = true ∧
      pyGet [("title", "A")] k ≠ pyGet [("title", "B")] k :=
  ⟨by decide, c10_diff_needs_next_field _ _ _ (by decide)⟩

end Cmus
